import Mathlib

/-!
Shallow embedding of the camera session manager in `src/main.py`
(`create_error_image`, `initialize_camera`, `start_webcam`, `stop_webcam`,
`get_webcam_frame`, `check_camera_permissions`) together with theorems
checking the natural-language specification against it.

Device interaction (`cv2.VideoCapture`) is modelled by a `DeviceModel`
describing, for each candidate index, whether constructing a capture raises,
whether `isOpened()` holds, the outcome of the k-th `read()` on a handle at
that index, whether `set(...)` or `release()` raise, and the value reported
by `get(CAP_PROP_BUFFERSIZE)`.  Every operation returns its result, the new
global state, and a trace of the device calls it performed, so that claims
about probing order, handle release and "no device access" are statable.
-/

namespace Webcam

/-- A raw frame as delivered by a device `read()` call: its shape
`(height, width, channels)` and an abstract content identifier. -/
structure Frame where
  height : Nat
  width : Nat
  channels : Nat
  content : Nat
  deriving DecidableEq, Repr

/-- One `cv2.putText` call recorded on an image: the text, the position
`(x, y)`, the font scale times ten, the BGR color and the thickness. -/
structure TextOp where
  text : String
  x : Nat
  y : Nat
  scale10 : Nat
  colorB : Nat
  colorG : Nat
  colorR : Nat
  thickness : Nat
  deriving DecidableEq, Repr

/-- The payload of an image buffer: either a zeroed canvas with a list of
drawn text lines, or the RGB conversion of a device frame. -/
inductive ImageData where
  | textLines (ops : List TextOp)
  | deviceRGB (content : Nat)
  deriving DecidableEq, Repr

/-- An image buffer as handed to the UI layer: shape plus payload. -/
structure Image where
  height : Nat
  width : Nat
  channels : Nat
  data : ImageData
  deriving DecidableEq, Repr

/-- The text operations drawn on a text image (empty for device frames). -/
def Image.textOps : Image → List TextOp
  | ⟨_, _, _, ImageData.textLines ops⟩ => ops
  | ⟨_, _, _, ImageData.deviceRGB _⟩ => []

/-- `cv2.cvtColor(frame, cv2.COLOR_BGR2RGB)`: shape is preserved, the
payload is the device content reinterpreted in RGB order. -/
def cvtColorBGR2RGB (f : Frame) : Image :=
  ⟨f.height, f.width, f.channels, ImageData.deviceRGB f.content⟩

/-- The `cv2.CAP_PROP_FRAME_WIDTH` property id. -/
def CAP_PROP_FRAME_WIDTH : Nat := 3
/-- The `cv2.CAP_PROP_FRAME_HEIGHT` property id. -/
def CAP_PROP_FRAME_HEIGHT : Nat := 4
/-- The `cv2.CAP_PROP_FPS` property id. -/
def CAP_PROP_FPS : Nat := 5
/-- The `cv2.CAP_PROP_BUFFERSIZE` property id. -/
def CAP_PROP_BUFFERSIZE : Nat := 38

/-- An open capture handle as tracked by the manager: the device index it
was opened at and how many `read()` calls it has consumed so far. -/
structure CamHandle where
  index : Nat
  readsDone : Nat
  deriving DecidableEq, Repr

/-- The four module-level globals of `src/main.py`. -/
structure WebcamState where
  camera : Option CamHandle
  is_running : Bool
  last_frame : Image
  error_message : Option String
  deriving DecidableEq, Repr

/-- One device call recorded in a trace: an open attempt, a read attempt, a
property set, or a release. -/
inductive DevEvent where
  | openEv (idx : Nat)
  | readEv (idx : Nat)
  | setEv (idx : Nat) (prop : Nat) (value : Nat)
  | releaseEv (idx : Nat)
  deriving DecidableEq, Repr

/-- The behavior of the capture devices visible to the program.  Each
`...Exn` field is `some e` when the corresponding call raises an exception
whose `str` is `e`; read outcomes are indexed by device index and by the
read count of the handle. -/
structure DeviceModel where
  openExn : Nat → Option String
  openOk : Nat → Bool
  readExn : Nat → Nat → Option String
  readRet : Nat → Nat → Bool
  readFrame : Nat → Nat → Option Frame
  setExn : Nat → Option String
  releaseExn : Nat → Option String
  getBufSize : Nat → Nat

/-- A device model none of whose calls ever raises an exception. -/
def NoExn (m : DeviceModel) : Prop :=
  (∀ i, m.openExn i = none) ∧ (∀ i k, m.readExn i k = none) ∧
    (∀ i, m.setExn i = none) ∧ (∀ i, m.releaseExn i = none)

/-- Index `i` wins the acquisition probe: its open reports success and its
first read returns `ret = True` with a frame that is not `None`. -/
def winsb (m : DeviceModel) (i : Nat) : Bool :=
  m.openOk i && m.readRet i 0 && (m.readFrame i 0).isSome

/-- The fixed multi-cause message assigned to `error_message` when no
candidate index yields a working camera. -/
def noCameraMsg : String :=
  "No working camera found. Possible issues:\n1. Camera is being used by another application\n2. Camera drivers not installed\n3. Camera permissions denied\n4. No camera connected"

/-- Python `str.split` with separator `"\n"`, over the character list of
the string: every newline starts a new piece, and the empty string splits
to one empty piece. -/
def splitNl : List Char → List String
  | [] => [""]
  | c :: rest =>
    let r := splitNl rest
    if c = '\n' then "" :: r
    else
      match r with
      | [] => [String.mk [c]]
      | h :: t => String.mk (c :: h.data) :: t

/-- The loop body of `create_error_image`: draw each line at `(20, y)`,
advancing `y` by 40, breaking once the enumeration index `i` exceeds 6
(`if i > 6: break`). -/
def putLines : List String → Nat → Nat → List TextOp
  | [], _, _ => []
  | l :: rest, i, y =>
      if i > 6 then []
      else ⟨l, 20, y, 7, 255, 255, 255, 1⟩ :: putLines rest (i + 1) (y + 40)

/-- `create_error_image(error_text)`: a zeroed 480 by 640 by 3 canvas with
the message split on newlines and drawn starting at `y = 50`. -/
def create_error_image (error_text : String) : Image :=
  ⟨480, 640, 3, ImageData.textLines (putLines (splitNl error_text.data) 0 50)⟩

/-- The placeholder frame the module seeds `last_frame` with at import
time (`"Press \x27Start Webcam\x27 to begin"` drawn at `(50, 240)`). -/
def initialFrame : Image :=
  ⟨480, 640, 3,
    ImageData.textLines [⟨"Press \x27Start Webcam\x27 to begin", 50, 240, 8, 255, 255, 255, 2⟩]⟩

/-- The state of the module right after import: no handle, not running,
placeholder last frame, no error message. -/
def initState : WebcamState :=
  ⟨none, false, initialFrame, none⟩

/-- Python truthiness of `error_message or default`: `None` and the empty
string both fall through to the default. -/
def pyOr (s : Option String) (d : String) : String :=
  match s with
  | none => d
  | some t => if t = "" then d else t

/-- Outcome of the probe loop inside `initialize_camera`. -/
inductive ProbeOutcome where
  | adoptedOk (h : CamHandle)
  | adoptedRaised (h : CamHandle) (e : String)
  | exhausted
  | raised (e : String)
  deriving DecidableEq, Repr

/-- The `for camera_index in [0, 1, 2]` probe loop of `initialize_camera`,
over an arbitrary candidate list.  Each probed index is opened; if
`isOpened()`, one test read is attempted; a winning index is adopted and
configured (width 640, height 480, fps 30, buffer size 1); a losing probe
is released.  Exceptions abort the loop (`adoptedRaised` when the handle
was already assigned to the global, `raised` otherwise). -/
def tryIndices (m : DeviceModel) : List Nat → ProbeOutcome × List DevEvent
  | [] => (ProbeOutcome.exhausted, [])
  | i :: rest =>
    match m.openExn i with
    | some e => (ProbeOutcome.raised e, [DevEvent.openEv i])
    | none =>
      if m.openOk i then
        match m.readExn i 0 with
        | some e => (ProbeOutcome.raised e, [DevEvent.openEv i, DevEvent.readEv i])
        | none =>
          match m.readRet i 0, m.readFrame i 0 with
          | true, some _ =>
            match m.setExn i with
            | some e =>
              (ProbeOutcome.adoptedRaised ⟨i, 1⟩ e,
                [DevEvent.openEv i, DevEvent.readEv i,
                  DevEvent.setEv i CAP_PROP_FRAME_WIDTH 640])
            | none =>
              (ProbeOutcome.adoptedOk ⟨i, 1⟩,
                [DevEvent.openEv i, DevEvent.readEv i,
                  DevEvent.setEv i CAP_PROP_FRAME_WIDTH 640,
                  DevEvent.setEv i CAP_PROP_FRAME_HEIGHT 480,
                  DevEvent.setEv i CAP_PROP_FPS 30,
                  DevEvent.setEv i CAP_PROP_BUFFERSIZE 1])
          | _, _ =>
            match m.releaseExn i with
            | some e =>
              (ProbeOutcome.raised e,
                [DevEvent.openEv i, DevEvent.readEv i, DevEvent.releaseEv i])
            | none =>
              let r := tryIndices m rest
              (r.1, [DevEvent.openEv i, DevEvent.readEv i, DevEvent.releaseEv i] ++ r.2)
      else
        match m.releaseExn i with
        | some e => (ProbeOutcome.raised e, [DevEvent.openEv i, DevEvent.releaseEv i])
        | none =>
          let r := tryIndices m rest
          (r.1, [DevEvent.openEv i, DevEvent.releaseEv i] ++ r.2)

/-- `initialize_camera()`: if a handle is already held the probe is skipped
and the function returns `camera is not None and camera.isOpened()`;
otherwise the indices 0, 1, 2 are probed.  On adoption `error_message` is
cleared; on exhaustion it is set to `noCameraMsg`; an exception is caught
and stored as `"Camera initialization error: " ++ e` (with the handle kept
when the exception was raised after the global assignment). -/
def initialize_camera (m : DeviceModel) (s : WebcamState) :
    Bool × WebcamState × List DevEvent :=
  match s.camera with
  | some h => (m.openOk h.index, s, [])
  | none =>
    match tryIndices m [0, 1, 2] with
    | (ProbeOutcome.adoptedOk h, tr) =>
        (true, { s with camera := some h, error_message := none }, tr)
    | (ProbeOutcome.adoptedRaised h e, tr) =>
        (false,
          { s with
            camera := some h,
            error_message := some ("Camera initialization error: " ++ e) }, tr)
    | (ProbeOutcome.exhausted, tr) =>
        (false, { s with error_message := some noCameraMsg }, tr)
    | (ProbeOutcome.raised e, tr) =>
        (false,
          { s with error_message := some ("Camera initialization error: " ++ e) }, tr)

/-- `start_webcam()`: set `is_running`, run `initialize_camera`, and on
success read one frame, convert it to RGB and store it as `last_frame`.
All failures are converted to rendered error images; note that the read
failure branches assign only the local `error_msg`, never the global
`error_message`. -/
def start_webcam (m : DeviceModel) (s : WebcamState) :
    Image × WebcamState × List DevEvent :=
  let s1 := { s with is_running := true }
  match initialize_camera m s1 with
  | (false, s2, tr) =>
      (create_error_image (pyOr s2.error_message "Camera initialization failed"), s2, tr)
  | (true, s2, tr) =>
    match s2.camera with
    | none =>
        -- unreachable: `initialize_camera` only reports success with a handle
        -- held; Python would raise `AttributeError` on `camera.read()` here,
        -- caught by the same `except` branch.
        (create_error_image "Error reading from camera: camera is None", s2, tr)
    | some h =>
      match m.readExn h.index h.readsDone with
      | some e =>
          (create_error_image ("Error reading from camera: " ++ e), s2,
            tr ++ [DevEvent.readEv h.index])
      | none =>
        match m.readRet h.index h.readsDone, m.readFrame h.index h.readsDone with
        | true, some f =>
            let img := cvtColorBGR2RGB f
            (img,
              { s2 with
                camera := some ⟨h.index, h.readsDone + 1⟩,
                last_frame := img },
              tr ++ [DevEvent.readEv h.index])
        | _, _ =>
            (create_error_image "Camera opened but cannot read frames",
              { s2 with camera := some ⟨h.index, h.readsDone + 1⟩ },
              tr ++ [DevEvent.readEv h.index])

/-- `stop_webcam()`: clear `is_running`, release the handle if one is held
(an exception from `release()` is caught and printed; the `finally` block
clears the global either way), and return `last_frame`. -/
def stop_webcam (m : DeviceModel) (s : WebcamState) :
    Image × WebcamState × List DevEvent :=
  let s1 := { s with is_running := false }
  match s1.camera with
  | none => (s1.last_frame, s1, [])
  | some h =>
    match m.releaseExn h.index with
    | some _ => (s1.last_frame, { s1 with camera := none }, [DevEvent.releaseEv h.index])
    | none => (s1.last_frame, { s1 with camera := none }, [DevEvent.releaseEv h.index])

/-- The number of buffered frames `get_webcam_frame` drains before its real
read: `int(get(CAP_PROP_BUFFERSIZE)) - 1` when the reported buffer size
exceeds 1, zero otherwise. -/
def drainCount (m : DeviceModel) (i : Nat) : Nat :=
  if m.getBufSize i > 1 then m.getBufSize i - 1 else 0

/-- The buffer-drain loop of `get_webcam_frame`: `n` reads whose results
are discarded; a raising read aborts the loop with the exception text. -/
def drainReads (m : DeviceModel) : CamHandle → Nat → Option String × CamHandle × List DevEvent
  | h, 0 => (none, h, [])
  | h, n + 1 =>
    match m.readExn h.index h.readsDone with
    | some e => (some e, h, [DevEvent.readEv h.index])
    | none =>
      let r := drainReads m ⟨h.index, h.readsDone + 1⟩ n
      (r.1, r.2.1, DevEvent.readEv h.index :: r.2.2)

/-- `get_webcam_frame()`: return `last_frame` when not running; a rendered
"Camera not initialized" image when running without a handle; otherwise
drain the buffer, read one frame, and on success convert it to RGB and
store it as `last_frame`.  A failed read yields a rendered error image
without touching `last_frame` or releasing the handle; exceptions are
caught and rendered. -/
def get_webcam_frame (m : DeviceModel) (s : WebcamState) :
    Image × WebcamState × List DevEvent :=
  if s.is_running = false then (s.last_frame, s, [])
  else
    match s.camera with
    | none => (create_error_image "Camera not initialized", s, [])
    | some h =>
      match drainReads m h (drainCount m h.index) with
      | (some e, h2, tr) =>
          (create_error_image ("Error getting webcam frame: " ++ e),
            { s with camera := some h2 }, tr)
      | (none, h2, tr) =>
        match m.readExn h2.index h2.readsDone with
        | some e =>
            (create_error_image ("Error getting webcam frame: " ++ e),
              { s with camera := some h2 }, tr ++ [DevEvent.readEv h2.index])
        | none =>
          match m.readRet h2.index h2.readsDone, m.readFrame h2.index h2.readsDone with
          | true, some f =>
              let img := cvtColorBGR2RGB f
              (img,
                { s with
                  camera := some ⟨h2.index, h2.readsDone + 1⟩,
                  last_frame := img },
                tr ++ [DevEvent.readEv h2.index])
          | _, _ =>
              (create_error_image "Failed to read frame from camera",
                { s with camera := some ⟨h2.index, h2.readsDone + 1⟩ },
                tr ++ [DevEvent.readEv h2.index])

/-- The loop body of `check_camera_permissions`: open each index, and when
`isOpened()` holds attempt one read, record the index when `ret` is true,
then release.  A handle whose open failed is NOT released (the source has
no `else` branch here).  An exception makes the whole function return the
empty list. -/
def checkLoop (m : DeviceModel) : List Nat → Option String × List Nat × List DevEvent
  | [] => (none, [], [])
  | i :: rest =>
    match m.openExn i with
    | some e => (some e, [], [DevEvent.openEv i])
    | none =>
      if m.openOk i then
        match m.readExn i 0 with
        | some e => (some e, [], [DevEvent.openEv i, DevEvent.readEv i])
        | none =>
          match m.releaseExn i with
          | some e =>
              (some e, [], [DevEvent.openEv i, DevEvent.readEv i, DevEvent.releaseEv i])
          | none =>
            let r := checkLoop m rest
            (r.1, (if m.readRet i 0 then [i] else []) ++ r.2.1,
              [DevEvent.openEv i, DevEvent.readEv i, DevEvent.releaseEv i] ++ r.2.2)
      else
        let r := checkLoop m rest
        (r.1, r.2.1, [DevEvent.openEv i] ++ r.2.2)

/-- `check_camera_permissions()`: probe indices 0, 1, 2 and return the
recorded available indices, or the empty list when an exception was
caught. -/
def check_camera_permissions (m : DeviceModel) : List Nat × List DevEvent :=
  match checkLoop m [0, 1, 2] with
  | (some _, _, tr) => ([], tr)
  | (none, lst, tr) => (lst, tr)

/-- The device indices on which an open was attempted in a trace. -/
def opensOf (tr : List DevEvent) : List Nat :=
  tr.filterMap fun e => match e with | DevEvent.openEv i => some i | _ => none

/-- The device indices on which a release was performed in a trace. -/
def releasesOf (tr : List DevEvent) : List Nat :=
  tr.filterMap fun e => match e with | DevEvent.releaseEv i => some i | _ => none

/-- The number of property-set calls in a trace. -/
def setCount (tr : List DevEvent) : Nat :=
  tr.countP fun e => match e with | DevEvent.setEv _ _ _ => true | _ => false

/-- The trace of a probe at index `i` that did not win: open then release,
with a test read in between when the open reported success. -/
def probeFailTrace (m : DeviceModel) (i : Nat) : List DevEvent :=
  if m.openOk i then [DevEvent.openEv i, DevEvent.readEv i, DevEvent.releaseEv i]
  else [DevEvent.openEv i, DevEvent.releaseEv i]

/-- The trace of the winning probe at index `i`: open, test read, and the
four configuration calls. -/
def winTrace (i : Nat) : List DevEvent :=
  [DevEvent.openEv i, DevEvent.readEv i,
    DevEvent.setEv i CAP_PROP_FRAME_WIDTH 640,
    DevEvent.setEv i CAP_PROP_FRAME_HEIGHT 480,
    DevEvent.setEv i CAP_PROP_FPS 30,
    DevEvent.setEv i CAP_PROP_BUFFERSIZE 1]

/-- The trace of a `check_camera_permissions` probe at index `i`: open
only when the open failed (no release), open-read-release otherwise. -/
def checkProbeTrace (m : DeviceModel) (i : Nat) : List DevEvent :=
  if m.openOk i then [DevEvent.openEv i, DevEvent.readEv i, DevEvent.releaseEv i]
  else [DevEvent.openEv i]

/-- One UI-triggered operation on the session manager. -/
inductive Op where
  | start
  | stop
  | poll
  deriving DecidableEq, Repr

/-- Dispatch one operation. -/
def runOp (m : DeviceModel) (s : WebcamState) : Op → Image × WebcamState × List DevEvent
  | Op.start => start_webcam m s
  | Op.stop => stop_webcam m s
  | Op.poll => get_webcam_frame m s

/-- Run a sequence of operations, collecting every image returned. -/
def runSeq (m : DeviceModel) (s : WebcamState) : List Op → List Image × WebcamState
  | [] => ([], s)
  | o :: rest =>
    let r := runOp m s o
    let r2 := runSeq m r.2.1 rest
    (r.1 :: r2.1, r2.2)

/-- The state after `n` consecutive `get_webcam_frame` calls. -/
def pollIterState (m : DeviceModel) (s : WebcamState) : Nat → WebcamState
  | 0 => s
  | n + 1 => (get_webcam_frame m (pollIterState m s n)).2.1

/-- A well-formed display buffer: 480 rows, 640 columns, 3 channels. -/
def wfb (i : Image) : Bool :=
  i.height == 480 && i.width == 640 && i.channels == 3

/-- Every frame the device model can deliver has the display shape. -/
def wfFrames (m : DeviceModel) : Prop :=
  ∀ i k f, m.readFrame i k = some f → f.height = 480 ∧ f.width = 640 ∧ f.channels = 3

/-- A concrete device model with no camera at all: every open fails and
nothing raises. -/
def mAllFail : DeviceModel :=
  { openExn := fun _ => none, openOk := fun _ => false,
    readExn := fun _ _ => none, readRet := fun _ _ => false,
    readFrame := fun _ _ => none, setExn := fun _ => none,
    releaseExn := fun _ => none, getBufSize := fun _ => 1 }

/-- A concrete device model where index 0 fails to open and index 1 is a
fully working camera delivering display-shaped frames. -/
def mIdxOne : DeviceModel :=
  { openExn := fun _ => none, openOk := fun i => i == 1,
    readExn := fun _ _ => none, readRet := fun i _ => i == 1,
    readFrame := fun i k => if i == 1 then some ⟨480, 640, 3, k⟩ else none,
    setExn := fun _ => none, releaseExn := fun _ => none,
    getBufSize := fun _ => 1 }

/-- A concrete device model where index 0 opens and its very first read
succeeds, but every later read fails (`ret = False`). -/
def mFirstReadOnly : DeviceModel :=
  { openExn := fun _ => none, openOk := fun i => i == 0,
    readExn := fun _ _ => none, readRet := fun i k => i == 0 && k == 0,
    readFrame := fun i k => if i == 0 && k == 0 then some ⟨480, 640, 3, 0⟩ else none,
    setExn := fun _ => none, releaseExn := fun _ => none,
    getBufSize := fun _ => 1 }

/-- A concrete device model where index 0 works but delivers frames of
shape 100 by 100 by 3 instead of the display shape. -/
def mSmallFrames : DeviceModel :=
  { openExn := fun _ => none, openOk := fun i => i == 0,
    readExn := fun _ _ => none, readRet := fun i _ => i == 0,
    readFrame := fun i k => if i == 0 then some ⟨100, 100, 3, k⟩ else none,
    setExn := fun _ => none, releaseExn := fun _ => none,
    getBufSize := fun _ => 1 }

/-- A concrete device model where index 0 always works and always delivers
display-shaped frames. -/
def mGood : DeviceModel :=
  { openExn := fun _ => none, openOk := fun i => i == 0,
    readExn := fun _ _ => none, readRet := fun i _ => i == 0,
    readFrame := fun i k => if i == 0 then some ⟨480, 640, 3, k⟩ else none,
    setExn := fun _ => none, releaseExn := fun _ => none,
    getBufSize := fun _ => 1 }

/-- A concrete device model where index 0 works, its read number 2 fails,
and all other reads succeed (a transient read failure during polling). -/
def mFlaky : DeviceModel :=
  { openExn := fun _ => none, openOk := fun i => i == 0,
    readExn := fun _ _ => none,
    readRet := fun i k => i == 0 && !(k == 2),
    readFrame := fun i k => if i == 0 && !(k == 2) then some ⟨480, 640, 3, k⟩ else none,
    setExn := fun _ => none, releaseExn := fun _ => none,
    getBufSize := fun _ => 1 }

@[simp] lemma opensOf_nil : opensOf [] = [] := rfl

@[simp] lemma opensOf_cons_open (i : Nat) (tr : List DevEvent) :
    opensOf (DevEvent.openEv i :: tr) = i :: opensOf tr := rfl

@[simp] lemma opensOf_cons_read (i : Nat) (tr : List DevEvent) :
    opensOf (DevEvent.readEv i :: tr) = opensOf tr := rfl

@[simp] lemma opensOf_cons_set (i p v : Nat) (tr : List DevEvent) :
    opensOf (DevEvent.setEv i p v :: tr) = opensOf tr := rfl

@[simp] lemma opensOf_cons_release (i : Nat) (tr : List DevEvent) :
    opensOf (DevEvent.releaseEv i :: tr) = opensOf tr := rfl

@[simp] lemma opensOf_append (a b : List DevEvent) :
    opensOf (a ++ b) = opensOf a ++ opensOf b := by
  simp [opensOf, List.filterMap_append]

@[simp] lemma releasesOf_nil : releasesOf [] = [] := rfl

@[simp] lemma releasesOf_cons_open (i : Nat) (tr : List DevEvent) :
    releasesOf (DevEvent.openEv i :: tr) = releasesOf tr := rfl

@[simp] lemma releasesOf_cons_read (i : Nat) (tr : List DevEvent) :
    releasesOf (DevEvent.readEv i :: tr) = releasesOf tr := rfl

@[simp] lemma releasesOf_cons_set (i p v : Nat) (tr : List DevEvent) :
    releasesOf (DevEvent.setEv i p v :: tr) = releasesOf tr := rfl

@[simp] lemma releasesOf_cons_release (i : Nat) (tr : List DevEvent) :
    releasesOf (DevEvent.releaseEv i :: tr) = i :: releasesOf tr := rfl

@[simp] lemma releasesOf_append (a b : List DevEvent) :
    releasesOf (a ++ b) = releasesOf a ++ releasesOf b := by
  simp [releasesOf, List.filterMap_append]

@[simp] lemma setCount_nil : setCount [] = 0 := rfl

@[simp] lemma setCount_cons_open (i : Nat) (tr : List DevEvent) :
    setCount (DevEvent.openEv i :: tr) = setCount tr := rfl

@[simp] lemma setCount_cons_read (i : Nat) (tr : List DevEvent) :
    setCount (DevEvent.readEv i :: tr) = setCount tr := rfl

@[simp] lemma setCount_cons_set (i p v : Nat) (tr : List DevEvent) :
    setCount (DevEvent.setEv i p v :: tr) = setCount tr + 1 := by
  simp [setCount, List.countP_cons]

@[simp] lemma setCount_cons_release (i : Nat) (tr : List DevEvent) :
    setCount (DevEvent.releaseEv i :: tr) = setCount tr := rfl

@[simp] lemma setCount_append (a b : List DevEvent) :
    setCount (a ++ b) = setCount a + setCount b := by
  simp [setCount, List.countP_append]

/-- `stop_webcam` in closed form: it always returns the previous
`last_frame`, clears the handle, stops the session, and touches the device
only through the single release call on a held handle. -/
lemma stop_webcam_eq (m : DeviceModel) (s : WebcamState) :
    stop_webcam m s =
      (s.last_frame, { s with is_running := false, camera := none },
        match s.camera with
        | none => []
        | some h => [DevEvent.releaseEv h.index]) := by
  rcases s with ⟨cam, run, lf, em⟩
  cases cam with
  | none => simp [stop_webcam]
  | some h => cases hr : m.releaseExn h.index <;> simp [stop_webcam, hr]

/-- C10: `stop()` never fails and always fully clears the handle: for
every state and every device model, including ones whose `release()`
raises, after `stop()` the handle is cleared and the session is stopped,
`stop()` returns `last_frame`, and a second `stop()` performs no device
access and returns the same frame. -/
theorem claim_C10_stop_always_clears (m : DeviceModel) (s : WebcamState) :
    (stop_webcam m s).1 = s.last_frame ∧
    (stop_webcam m s).2.1.camera = none ∧
    (stop_webcam m s).2.1.is_running = false ∧
    (stop_webcam m s).2.1.last_frame = s.last_frame ∧
    stop_webcam m (stop_webcam m s).2.1 = (s.last_frame, (stop_webcam m s).2.1, []) := by
  rw [stop_webcam_eq m s, stop_webcam_eq m]
  simp

/-- C5: `stop()` followed immediately by `poll()` returns the exact buffer
`stop()` returned, with no device access; and any `poll()` performed while
the session is stopped returns `last_frame` unchanged, leaves the state
untouched, and performs no device access. -/
theorem claim_C5_stop_then_poll (m : DeviceModel) (s : WebcamState) :
    get_webcam_frame m (stop_webcam m s).2.1 =
      ((stop_webcam m s).1, (stop_webcam m s).2.1, []) ∧
    (s.is_running = false → get_webcam_frame m s = (s.last_frame, s, [])) := by
  constructor
  · rw [stop_webcam_eq m s]
    simp [get_webcam_frame]
  · intro h
    simp [get_webcam_frame, h]

/-- C5 witness: at a concrete device model and the initial state, the
buffer returned by `stop()` is exactly what the following `poll()`
returns, and a stopped-state poll is the identity with an empty trace. -/
theorem claim_C5_witness :
    get_webcam_frame mAllFail (stop_webcam mAllFail initState).2.1 =
      ((stop_webcam mAllFail initState).1, (stop_webcam mAllFail initState).2.1, []) ∧
    get_webcam_frame mAllFail initState = (initState.last_frame, initState, []) :=
  ⟨(claim_C5_stop_then_poll mAllFail initState).1,
    (claim_C5_stop_then_poll mAllFail initState).2 rfl⟩

/-- C6: when a handle is already held, `start()` performs no device open
(the trace contains no open event) and the held handle keeps its device
index: acquisition is skipped entirely. -/
theorem claim_C6_start_idempotent (m : DeviceModel) (s : WebcamState)
    (h : CamHandle) (hc : s.camera = some h) :
    opensOf (start_webcam m s).2.2 = [] ∧
    ((start_webcam m s).2.1.camera).map CamHandle.index = some h.index := by
  rcases s with ⟨cam, run, lf, em⟩
  obtain rfl : cam = some h := hc
  simp only [start_webcam, initialize_camera]
  cases ho : m.openOk h.index
  · simp
  · cases hre : m.readExn h.index h.readsDone
    · cases hrr : m.readRet h.index h.readsDone <;>
        cases hrf : m.readFrame h.index h.readsDone <;> simp [hre, hrr, hrf]
    · simp [hre]

/-- C6 witness: with a working camera already acquired (the state reached
by a successful `start()`), a second `start()` opens no device and keeps
the handle at index 0. -/
theorem claim_C6_witness :
    opensOf (start_webcam mGood (start_webcam mGood initState).2.1).2.2 = [] ∧
    ((start_webcam mGood (start_webcam mGood initState).2.1).2.1.camera).map
      CamHandle.index = some (0 : Nat) :=
  claim_C6_start_idempotent mGood (start_webcam mGood initState).2.1 ⟨0, 2⟩ (by decide)

/-- The length of the rendered line list: all lines up to the break at
index 7. -/
lemma putLines_length (ls : List String) : ∀ i y, (putLines ls i y).length = min ls.length (7 - i) := by
  induction ls with
  | nil => intro i y; simp [putLines]
  | cons l rest ih =>
    intro i y
    by_cases hi : i > 6
    · simp [putLines, hi]
      omega
    · simp [putLines, hi, ih (i + 1)]
      omega

/-- The j-th rendered line: the j-th line of the message, drawn at
`x = 20` and `y` advanced by 40 per line, font scale 0.7, white, thickness
one. -/
lemma putLines_get (ls : List String) : ∀ i y j (h1 : j < ls.length), j + i < 7 →
    (putLines ls i y)[j]? = some ⟨ls.get ⟨j, h1⟩, 20, y + 40 * j, 7, 255, 255, 255, 1⟩ := by
  induction ls with
  | nil => intro i y j h1; exact absurd h1 (by simp)
  | cons l rest ih =>
    intro i y j h1 h2
    have hi : ¬i > 6 := by omega
    cases j with
    | zero => simp [putLines, hi]
    | succ k =>
      have h1a : k < rest.length := by simpa using h1
      have h2a : k + (i + 1) < 7 := by omega
      simp only [putLines, if_neg hi, List.getElem?_cons_succ]
      rw [ih (i + 1) (y + 40) k h1a h2a]
      simp [List.get]
      omega

/-- C9: `create_error_image` is a deterministic pure function of the
message text alone: it returns a 640 by 480 by 3 image whose j-th drawn
line (for j below both the line count and 7) is the j-th line of the
message at `x = 20`, `y = 50 + 40 j`, fixed font scale and color, and at
most 7 lines are drawn (lines beyond the seventh are dropped). -/
theorem claim_C9_error_image_pure (t : String) :
    (create_error_image t).height = 480 ∧
    (create_error_image t).width = 640 ∧
    (create_error_image t).channels = 3 ∧
    (create_error_image t).textOps.length = min (splitNl t.data).length 7 ∧
    ∀ j (h1 : j < (splitNl t.data).length), j < 7 →
      (create_error_image t).textOps[j]? =
        some ⟨(splitNl t.data).get ⟨j, h1⟩, 20, 50 + 40 * j, 7, 255, 255, 255, 1⟩ := by
  refine ⟨rfl, rfl, rfl, ?_, ?_⟩
  · show (putLines (splitNl t.data) 0 50).length = _
    rw [putLines_length]
  · intro j h1 h2
    show (putLines (splitNl t.data) 0 50)[j]? = _
    rw [putLines_get (splitNl t.data) 0 50 j h1 (by omega)]

/-- C9 witness: on the concrete two-line message `"a\nb"` the rendered
image has two lines and the second is drawn at `(20, 90)`. -/
theorem claim_C9_witness :
    (create_error_image "a\nb").textOps.length = min (splitNl ("a\nb").data).length 7 ∧
    (create_error_image "a\nb").textOps[1]? = some ⟨"b", 20, 90, 7, 255, 255, 255, 1⟩ := by
  refine ⟨(claim_C9_error_image_pure "a\nb").2.2.2.1, ?_⟩
  rw [(claim_C9_error_image_pure "a\nb").2.2.2.2 1 (by decide) (by decide)]
  decide

lemma mAllFail_noExn : NoExn mAllFail :=
  ⟨fun _ => rfl, fun _ _ => rfl, fun _ => rfl, fun _ => rfl⟩

lemma mIdxOne_noExn : NoExn mIdxOne :=
  ⟨fun _ => rfl, fun _ _ => rfl, fun _ => rfl, fun _ => rfl⟩

lemma mGood_noExn : NoExn mGood :=
  ⟨fun _ => rfl, fun _ _ => rfl, fun _ => rfl, fun _ => rfl⟩

lemma mFlaky_noExn : NoExn mFlaky :=
  ⟨fun _ => rfl, fun _ _ => rfl, fun _ => rfl, fun _ => rfl⟩

@[simp] lemma opensOf_probeFailTrace (m : DeviceModel) (i : Nat) :
    opensOf (probeFailTrace m i) = [i] := by
  unfold probeFailTrace; split <;> simp

@[simp] lemma releasesOf_probeFailTrace (m : DeviceModel) (i : Nat) :
    releasesOf (probeFailTrace m i) = [i] := by
  unfold probeFailTrace; split <;> simp

@[simp] lemma setCount_probeFailTrace (m : DeviceModel) (i : Nat) :
    setCount (probeFailTrace m i) = 0 := by
  unfold probeFailTrace; split <;> simp

@[simp] lemma opensOf_winTrace (i : Nat) : opensOf (winTrace i) = [i] := by
  simp [winTrace]

@[simp] lemma releasesOf_winTrace (i : Nat) : releasesOf (winTrace i) = [] := by
  simp [winTrace]

@[simp] lemma setCount_winTrace (i : Nat) : setCount (winTrace i) = 4 := by
  simp [winTrace]

lemma opensOf_flatMap_probeFail (m : DeviceModel) :
    ∀ l : List Nat, opensOf (l.flatMap (probeFailTrace m)) = l := by
  intro l; induction l with
  | nil => simp
  | cons i rest ih => simp [ih]

lemma releasesOf_flatMap_probeFail (m : DeviceModel) :
    ∀ l : List Nat, releasesOf (l.flatMap (probeFailTrace m)) = l := by
  intro l; induction l with
  | nil => simp
  | cons i rest ih => simp [ih]

lemma setCount_flatMap_probeFail (m : DeviceModel) :
    ∀ l : List Nat, setCount (l.flatMap (probeFailTrace m)) = 0 := by
  intro l; induction l with
  | nil => simp
  | cons i rest ih => simp [ih]

/-- Probing one losing index under an exception-free model: open (plus a
test read when the open reported success), release, continue with the
remaining candidates. -/
lemma tryIndices_cons_fail (m : DeviceModel) (i : Nat) (l : List Nat)
    (hne : NoExn m) (hw : winsb m i = false) :
    tryIndices m (i :: l) =
      ((tryIndices m l).1, probeFailTrace m i ++ (tryIndices m l).2) := by
  obtain ⟨h1, h2, h3, h4⟩ := hne
  simp only [tryIndices, h1 i, h2 i 0, h4 i]
  cases ho : m.openOk i
  · simp [probeFailTrace, ho]
  · simp only [winsb, ho, Bool.true_and] at hw
    cases hr : m.readRet i 0 <;> cases hf : m.readFrame i 0 <;>
      simp_all [probeFailTrace]

/-- Probing a winning index under an exception-free model: adopt the
handle, apply the four configuration calls, stop searching. -/
lemma tryIndices_cons_win (m : DeviceModel) (i : Nat) (l : List Nat)
    (hne : NoExn m) (hw : winsb m i = true) :
    tryIndices m (i :: l) = (ProbeOutcome.adoptedOk ⟨i, 1⟩, winTrace i) := by
  obtain ⟨h1, h2, h3, h4⟩ := hne
  simp only [winsb, Bool.and_eq_true, Option.isSome_iff_exists] at hw
  obtain ⟨⟨ho, hr⟩, f, hf⟩ := hw
  simp [tryIndices, h1 i, h2 i 0, h3 i, ho, hr, hf, winTrace]

/-- Exhausting a list of losing candidates: every probe fails, every
probed handle is released. -/
lemma tryIndices_all_fail (m : DeviceModel) (l : List Nat) (hne : NoExn m)
    (hw : ∀ i ∈ l, winsb m i = false) :
    tryIndices m l = (ProbeOutcome.exhausted, l.flatMap (probeFailTrace m)) := by
  induction l with
  | nil => simp [tryIndices]
  | cons i rest ih =>
    rw [tryIndices_cons_fail m i rest hne (hw i (by simp)),
      ih (fun j hj => hw j (by simp [hj]))]
    simp

/-- Acquisition with no handle held and no winning candidate: indices 0,
1, 2 are probed and released, the fixed diagnostic message is stored and
failure is reported. -/
lemma initialize_all_fail (m : DeviceModel) (s : WebcamState) (hne : NoExn m)
    (hc : s.camera = none) (hw : ∀ i, i < 3 → winsb m i = false) :
    initialize_camera m s =
      (false, { s with error_message := some noCameraMsg },
        (List.range 3).flatMap (probeFailTrace m)) := by
  have ht := tryIndices_all_fail m [0, 1, 2] hne
    (by intro i hi; apply hw; simp at hi; omega)
  have h3 : List.range 3 = [0, 1, 2] := rfl
  simp [initialize_camera, hc, ht, h3]

/-- C1: acquisition from a state with no handle probes indices 0, 1, 2 in
order; the first winning index is adopted with its configuration applied
exactly once (four set calls), the diagnostic error is cleared and no
later index is probed, while every earlier (losing) probe is released; if
no index wins, every probed handle is released, the fixed four-cause
message is stored and failure is reported. -/
theorem claim_C1_acquisition (m : DeviceModel) (s : WebcamState)
    (hne : NoExn m) (hc : s.camera = none) :
    (∀ i0, i0 < 3 → winsb m i0 = true → (∀ j, j < i0 → winsb m j = false) →
      initialize_camera m s =
        (true, { s with camera := some ⟨i0, 1⟩, error_message := none },
          (List.range i0).flatMap (probeFailTrace m) ++ winTrace i0) ∧
      opensOf (initialize_camera m s).2.2 = List.range (i0 + 1) ∧
      releasesOf (initialize_camera m s).2.2 = List.range i0 ∧
      setCount (initialize_camera m s).2.2 = 4) ∧
    ((∀ i, i < 3 → winsb m i = false) →
      initialize_camera m s =
        (false, { s with error_message := some noCameraMsg },
          (List.range 3).flatMap (probeFailTrace m)) ∧
      opensOf (initialize_camera m s).2.2 = List.range 3 ∧
      releasesOf (initialize_camera m s).2.2 = List.range 3 ∧
      setCount (initialize_camera m s).2.2 = 0) := by
  constructor
  · intro i0 h3 hwin hprev
    interval_cases i0
    · have ht := tryIndices_cons_win m 0 [1, 2] hne hwin
      have he : initialize_camera m s =
          (true, { s with camera := some ⟨0, 1⟩, error_message := none }, winTrace 0) := by
        simp [initialize_camera, hc, ht]
      refine ⟨by rw [he]; simp, ?_, ?_, ?_⟩ <;> rw [he] <;> simp [List.range_succ]
    · have ht : tryIndices m [0, 1, 2] =
          (ProbeOutcome.adoptedOk ⟨1, 1⟩, probeFailTrace m 0 ++ winTrace 1) := by
        rw [tryIndices_cons_fail m 0 [1, 2] hne (hprev 0 (by omega)),
          tryIndices_cons_win m 1 [2] hne hwin]
      have he : initialize_camera m s =
          (true, { s with camera := some ⟨1, 1⟩, error_message := none },
            probeFailTrace m 0 ++ winTrace 1) := by
        simp [initialize_camera, hc, ht]
      refine ⟨by rw [he]; simp [List.range_succ], ?_, ?_, ?_⟩ <;>
        rw [he] <;> simp [List.range_succ]
    · have ht : tryIndices m [0, 1, 2] =
          (ProbeOutcome.adoptedOk ⟨2, 1⟩,
            probeFailTrace m 0 ++ (probeFailTrace m 1 ++ winTrace 2)) := by
        rw [tryIndices_cons_fail m 0 [1, 2] hne (hprev 0 (by omega)),
          tryIndices_cons_fail m 1 [2] hne (hprev 1 (by omega)),
          tryIndices_cons_win m 2 [] hne hwin]
      have he : initialize_camera m s =
          (true, { s with camera := some ⟨2, 1⟩, error_message := none },
            probeFailTrace m 0 ++ (probeFailTrace m 1 ++ winTrace 2)) := by
        simp [initialize_camera, hc, ht]
      refine ⟨by rw [he]; simp [List.range_succ], ?_, ?_, ?_⟩ <;>
        rw [he] <;> simp [List.range_succ]
  · intro hw
    have he := initialize_all_fail m s hne hc hw
    refine ⟨he, ?_, ?_, ?_⟩ <;>
      rw [he] <;>
      simp [opensOf_flatMap_probeFail, releasesOf_flatMap_probeFail,
        setCount_flatMap_probeFail]

/-- C1 witness: on a device model where index 0 fails to open and index 1
works, acquisition from the initial state adopts index 1 after releasing
the probe of index 0, applies the configuration exactly once, and never
probes index 2. -/
theorem claim_C1_witness :
    initialize_camera mIdxOne initState =
      (true, { initState with camera := some ⟨1, 1⟩, error_message := none },
        (List.range 1).flatMap (probeFailTrace mIdxOne) ++ winTrace 1) ∧
    opensOf (initialize_camera mIdxOne initState).2.2 = List.range 2 ∧
    releasesOf (initialize_camera mIdxOne initState).2.2 = List.range 1 ∧
    setCount (initialize_camera mIdxOne initState).2.2 = 4 :=
  (claim_C1_acquisition mIdxOne initState mIdxOne_noExn rfl).1 1 (by decide)
    (by decide) (by decide)

/-- C4: when acquisition fails cleanly (no candidate wins), `start()`
leaves the session running with no handle held and returns the rendered
fixed-message error image, and every subsequent `poll()` returns the
rendered "Camera not initialized" image with no device access and no new
acquisition attempt. -/
theorem claim_C4_failed_start (m : DeviceModel) (s : WebcamState)
    (hne : NoExn m) (hw : ∀ i, i < 3 → winsb m i = false) (hc : s.camera = none) :
    (start_webcam m s).2.1.is_running = true ∧
    (start_webcam m s).2.1.camera = none ∧
    (start_webcam m s).1 = create_error_image noCameraMsg ∧
    ∀ n, get_webcam_frame m (pollIterState m (start_webcam m s).2.1 n) =
      (create_error_image "Camera not initialized",
        pollIterState m (start_webcam m s).2.1 n, []) := by
  have hi := initialize_all_fail m { s with is_running := true } hne (by simp [hc]) hw
  have hs : start_webcam m s =
      (create_error_image noCameraMsg,
        { s with is_running := true, error_message := some noCameraMsg },
        (List.range 3).flatMap (probeFailTrace m)) := by
    simp [start_webcam, hi, pyOr, (by decide : ¬(noCameraMsg = ""))]
  have hstate : (start_webcam m s).2.1 =
      { s with is_running := true, error_message := some noCameraMsg } := by
    rw [hs]
  have hpoll : get_webcam_frame m
      { s with is_running := true, error_message := some noCameraMsg } =
      (create_error_image "Camera not initialized",
        { s with is_running := true, error_message := some noCameraMsg }, []) := by
    simp [get_webcam_frame, hc]
  have hiter : ∀ n, pollIterState m (start_webcam m s).2.1 n = (start_webcam m s).2.1 := by
    intro n; induction n with
    | zero => rfl
    | succ k ih =>
      simp only [pollIterState]
      rw [ih, hstate, hpoll]
  refine ⟨by rw [hstate], by rw [hstate]; simp [hc], by rw [hs], ?_⟩
  intro n
  rw [hiter n, hstate, hpoll]

/-- C4 witness: on a device model with no camera, after `start()` the
session is running without a handle, the fixed-message error image is
returned, and the poll after one intervening poll still yields the
"Camera not initialized" image. -/
theorem claim_C4_witness :
    (start_webcam mAllFail initState).2.1.is_running = true ∧
    (start_webcam mAllFail initState).2.1.camera = none ∧
    (start_webcam mAllFail initState).1 = create_error_image noCameraMsg ∧
    get_webcam_frame mAllFail (pollIterState mAllFail (start_webcam mAllFail initState).2.1 1) =
      (create_error_image "Camera not initialized",
        pollIterState mAllFail (start_webcam mAllFail initState).2.1 1, []) := by
  obtain ⟨a, b, c, d⟩ :=
    claim_C4_failed_start mAllFail initState mAllFail_noExn (by decide) rfl
  exact ⟨a, b, c, d 1⟩

/-- C3 counterexample: on a device whose index 0 opens and delivers one
good test read but whose next read fails, `start()` hits the read-failure
branch (returning the "Camera opened but cannot read frames" image), yet
the global `error_message` is left `None` — the branch assigns only the
local `error_msg`, so the claim "set on any read failure" is false. -/
theorem claim_C3_cex :
    (start_webcam mFirstReadOnly initState).1 =
      create_error_image "Camera opened but cannot read frames" ∧
    (start_webcam mFirstReadOnly initState).2.1.error_message = none :=
  ⟨rfl, rfl⟩

/-- C3 (amended): `error_message` is cleared exactly by a successful fresh
acquisition and set by a failed fresh acquisition; read failures in
`start()` and `poll()` leave it unchanged (they only render the message
into the returned image): `poll` never writes `error_message`, and
`start` changes it only through `initialize_camera`. -/
theorem claim_C3_error_message (m : DeviceModel) (s : WebcamState) :
    (s.camera = none → (initialize_camera m s).1 = true →
      (initialize_camera m s).2.1.error_message = none) ∧
    (s.camera = none → (initialize_camera m s).1 = false →
      ((initialize_camera m s).2.1.error_message).isSome = true) ∧
    (get_webcam_frame m s).2.1.error_message = s.error_message ∧
    (start_webcam m s).2.1.error_message =
      (initialize_camera m { s with is_running := true }).2.1.error_message := by
  refine ⟨?_, ?_, ?_, ?_⟩
  · intro hc
    rcases ht : tryIndices m [0, 1, 2] with ⟨o, tr⟩
    cases o <;> simp [initialize_camera, hc, ht]
  · intro hc
    rcases ht : tryIndices m [0, 1, 2] with ⟨o, tr⟩
    cases o <;> simp [initialize_camera, hc, ht]
  · rcases s with ⟨cam, run, lf, em⟩
    cases run
    · simp [get_webcam_frame]
    · cases cam with
      | none => simp [get_webcam_frame]
      | some h =>
        rcases hdr : drainReads m h (drainCount m h.index) with ⟨e, h2, tr⟩
        cases e
        · cases hre : m.readExn h2.index h2.readsDone
          · cases hrr : m.readRet h2.index h2.readsDone <;>
              cases hrf : m.readFrame h2.index h2.readsDone <;>
                simp [get_webcam_frame, hdr, hre, hrr, hrf]
          · simp [get_webcam_frame, hdr, hre]
        · simp [get_webcam_frame, hdr]
  · rcases hinit : initialize_camera m { s with is_running := true } with ⟨ok, s2, tr⟩
    cases ok
    · simp [start_webcam, hinit]
    · cases hc2 : s2.camera with
      | none => simp [start_webcam, hinit, hc2]
      | some h =>
        cases hre : m.readExn h.index h.readsDone
        · cases hrr : m.readRet h.index h.readsDone <;>
            cases hrf : m.readFrame h.index h.readsDone <;>
              simp [start_webcam, hinit, hc2, hre, hrr, hrf]
        · simp [start_webcam, hinit, hc2, hre]

/-- C3 witness: at a working device model, successful fresh acquisition
clears `error_message`, and a poll at the initial state leaves
`error_message` what it was. -/
theorem claim_C3_witness :
    (initialize_camera mGood initState).2.1.error_message = none ∧
    (get_webcam_frame mGood initState).2.1.error_message = initState.error_message :=
  ⟨(claim_C3_error_message mGood initState).1 rfl (by decide),
    (claim_C3_error_message mGood initState).2.2.1⟩

@[simp] lemma opensOf_checkProbeTrace (m : DeviceModel) (i : Nat) :
    opensOf (checkProbeTrace m i) = [i] := by
  unfold checkProbeTrace; split <;> simp

@[simp] lemma releasesOf_checkProbeTrace (m : DeviceModel) (i : Nat) :
    releasesOf (checkProbeTrace m i) = if m.openOk i then [i] else [] := by
  unfold checkProbeTrace; split <;> simp

lemma opensOf_flatMap_checkProbe (m : DeviceModel) :
    ∀ l : List Nat, opensOf (l.flatMap (checkProbeTrace m)) = l := by
  intro l; induction l with
  | nil => simp
  | cons i rest ih => simp [ih]

lemma releasesOf_flatMap_checkProbe (m : DeviceModel) :
    ∀ l : List Nat, releasesOf (l.flatMap (checkProbeTrace m)) =
      l.filter (fun i => m.openOk i) := by
  intro l; induction l with
  | nil => simp
  | cons i rest ih =>
    cases ho : m.openOk i <;> simp [ih, ho, List.filter_cons]

/-- The device-listing loop under an exception-free model, in closed
form: it reports the indices whose open and read both succeeded, and its
trace releases exactly the successfully opened handles. -/
lemma checkLoop_noExn (m : DeviceModel) (hne : NoExn m) :
    ∀ l, checkLoop m l =
      (none, l.filter (fun i => m.openOk i && m.readRet i 0),
        l.flatMap (checkProbeTrace m)) := by
  obtain ⟨h1, h2, h3, h4⟩ := hne
  intro l; induction l with
  | nil => simp [checkLoop]
  | cons i rest ih =>
    simp only [checkLoop, h1 i, h2 i 0, h4 i]
    cases ho : m.openOk i
    · simp [ih, checkProbeTrace, ho, List.filter_cons]
    · cases hr : m.readRet i 0 <;>
        simp [ih, checkProbeTrace, ho, hr, List.filter_cons]

/-- C2 counterexample: on a device model where index 0 fails to open (and
nothing raises), `check_camera_permissions` probes index 0 (an open event
is in its trace) but never releases it — the claim that every probed
handle, including failed opens, is released before returning is false. -/
theorem claim_C2_cex :
    0 ∈ opensOf (check_camera_permissions mIdxOne).2 ∧
    0 ∉ releasesOf (check_camera_permissions mIdxOne).2 := by
  decide

/-- C2 (amended): under an exception-free device model, the listing loop
over any probe bound returns exactly the ascending indices whose open and
single test read succeeded, and releases exactly the handles whose open
succeeded; handles whose open failed are probed but not released (they
hold no device).  In particular `check_camera_permissions` (probe bound
3) does so. -/
theorem claim_C2_list_devices (m : DeviceModel) (hne : NoExn m) :
    (∀ n, checkLoop m (List.range n) =
      (none, (List.range n).filter (fun i => m.openOk i && m.readRet i 0),
        (List.range n).flatMap (checkProbeTrace m))) ∧
    check_camera_permissions m =
      ((List.range 3).filter (fun i => m.openOk i && m.readRet i 0),
        (List.range 3).flatMap (checkProbeTrace m)) ∧
    releasesOf (check_camera_permissions m).2 =
      (List.range 3).filter (fun i => m.openOk i) ∧
    opensOf (check_camera_permissions m).2 = List.range 3 := by
  have hl := checkLoop_noExn m hne
  have h3 : List.range 3 = [0, 1, 2] := rfl
  have hc : check_camera_permissions m =
      ((List.range 3).filter (fun i => m.openOk i && m.readRet i 0),
        (List.range 3).flatMap (checkProbeTrace m)) := by
    rw [h3]
    simp [check_camera_permissions, hl [0, 1, 2]]
  refine ⟨fun n => hl (List.range n), hc, ?_, ?_⟩
  · rw [hc]
    exact releasesOf_flatMap_checkProbe m (List.range 3)
  · rw [hc]
    exact opensOf_flatMap_checkProbe m (List.range 3)

/-- C2 witness: at a concrete model where only index 1 works, the listing
returns `[1]` and releases exactly the successfully opened handle. -/
theorem claim_C2_witness :
    check_camera_permissions mIdxOne =
      ((List.range 3).filter (fun i => mIdxOne.openOk i && mIdxOne.readRet i 0),
        (List.range 3).flatMap (checkProbeTrace mIdxOne)) ∧
    releasesOf (check_camera_permissions mIdxOne).2 =
      (List.range 3).filter (fun i => mIdxOne.openOk i) :=
  ⟨(claim_C2_list_devices mIdxOne mIdxOne_noExn).2.1,
    (claim_C2_list_devices mIdxOne mIdxOne_noExn).2.2.1⟩

/-- The drain loop under a device whose reads never raise: it advances
the handle by `n` reads and records `n` read events. -/
lemma drainReads_noExn (m : DeviceModel) (i : Nat) (hx : ∀ k, m.readExn i k = none) :
    ∀ n k, drainReads m ⟨i, k⟩ n = (none, ⟨i, k + n⟩, List.replicate n (DevEvent.readEv i)) := by
  intro n; induction n with
  | zero => intro k; simp [drainReads]
  | succ nn ih =>
    intro k
    have ha : k + 1 + nn = k + (nn + 1) := by omega
    simp [drainReads, hx k, ih (k + 1), List.replicate_succ, ha]

/-- C7: while running with a live handle (and reads that do not raise),
a poll whose device read fails returns the rendered "Failed to read frame
from camera" image while keeping the handle (same device index, neither
released nor replaced) and leaving `last_frame` untouched; the next poll,
whose read succeeds, returns the new frame and stores it as
`last_frame`. -/
theorem claim_C7_transient_read_failure (m : DeviceModel) (s : WebcamState)
    (h : CamHandle) (f : Frame)
    (hrun : s.is_running = true) (hc : s.camera = some h)
    (hx : ∀ k, m.readExn h.index k = none)
    (hfail : m.readRet h.index (h.readsDone + drainCount m h.index) = false)
    (hsucc1 : m.readRet h.index
      (h.readsDone + drainCount m h.index + 1 + drainCount m h.index) = true)
    (hsucc2 : m.readFrame h.index
      (h.readsDone + drainCount m h.index + 1 + drainCount m h.index) = some f) :
    get_webcam_frame m s =
      (create_error_image "Failed to read frame from camera",
        { s with camera := some ⟨h.index, h.readsDone + drainCount m h.index + 1⟩ },
        List.replicate (drainCount m h.index) (DevEvent.readEv h.index) ++
          [DevEvent.readEv h.index]) ∧
    (get_webcam_frame m s).2.1.last_frame = s.last_frame ∧
    ((get_webcam_frame m s).2.1.camera).map CamHandle.index = some h.index ∧
    get_webcam_frame m (get_webcam_frame m s).2.1 =
      (cvtColorBGR2RGB f,
        { s with
          camera := some ⟨h.index,
            h.readsDone + drainCount m h.index + 1 + drainCount m h.index + 1⟩,
          last_frame := cvtColorBGR2RGB f },
        List.replicate (drainCount m h.index) (DevEvent.readEv h.index) ++
          [DevEvent.readEv h.index]) := by
  rcases h with ⟨idx, rd⟩
  rcases s with ⟨cam, run, lf, em⟩
  obtain rfl : run = true := hrun
  obtain rfl : cam = some ⟨idx, rd⟩ := hc
  simp only at hx hfail hsucc1 hsucc2
  have hg1 : get_webcam_frame m ⟨some ⟨idx, rd⟩, true, lf, em⟩ =
      (create_error_image "Failed to read frame from camera",
        ⟨some ⟨idx, rd + drainCount m idx + 1⟩, true, lf, em⟩,
        List.replicate (drainCount m idx) (DevEvent.readEv idx) ++
          [DevEvent.readEv idx]) := by
    simp [get_webcam_frame, drainReads_noExn m idx hx (drainCount m idx) rd,
      hx (rd + drainCount m idx), hfail]
  have hg2 : get_webcam_frame m
      (⟨some ⟨idx, rd + drainCount m idx + 1⟩, true, lf, em⟩ : WebcamState) =
      (cvtColorBGR2RGB f,
        ⟨some ⟨idx, rd + drainCount m idx + 1 + drainCount m idx + 1⟩, true,
          cvtColorBGR2RGB f, em⟩,
        List.replicate (drainCount m idx) (DevEvent.readEv idx) ++
          [DevEvent.readEv idx]) := by
    simp [get_webcam_frame,
      drainReads_noExn m idx hx (drainCount m idx) (rd + drainCount m idx + 1),
      hx (rd + drainCount m idx + 1 + drainCount m idx), hsucc1, hsucc2]
  refine ⟨hg1, by rw [hg1], by rw [hg1]; simp, by rw [hg1]; exact hg2⟩

/-- C7 witness: a camera at index 0 whose third read (the first poll
after a successful `start()`) fails, and whose next read succeeds: the
failing poll renders the error image and preserves `last_frame`, and the
next poll delivers the new frame. -/
theorem claim_C7_witness :
    (get_webcam_frame mFlaky (start_webcam mFlaky initState).2.1).1 =
      create_error_image "Failed to read frame from camera" ∧
    (get_webcam_frame mFlaky (start_webcam mFlaky initState).2.1).2.1.last_frame =
      (start_webcam mFlaky initState).2.1.last_frame ∧
    (get_webcam_frame mFlaky
        (get_webcam_frame mFlaky (start_webcam mFlaky initState).2.1).2.1).1 =
      cvtColorBGR2RGB ⟨480, 640, 3, 3⟩ := by
  obtain ⟨a, b, c, d⟩ := claim_C7_transient_read_failure mFlaky
    (start_webcam mFlaky initState).2.1 ⟨0, 2⟩ ⟨480, 640, 3, 3⟩
    (by decide) (by decide) (fun k => rfl) (by decide) (by decide) (by decide)
  exact ⟨by rw [a], b, by rw [d]⟩

/-- `initialize_camera` never touches `last_frame`. -/
lemma initialize_last_frame (m : DeviceModel) (s : WebcamState) :
    (initialize_camera m s).2.1.last_frame = s.last_frame := by
  cases hc : s.camera with
  | some h => simp [initialize_camera, hc]
  | none =>
    rcases ht : tryIndices m [0, 1, 2] with ⟨o, tr⟩
    cases o <;> simp [initialize_camera, hc, ht]

@[simp] lemma wfb_create_error_image (t : String) : wfb (create_error_image t) = true := rfl

/-- `start_webcam` returns a display-shaped image and keeps `last_frame`
display-shaped, for devices delivering display-shaped frames. -/
lemma start_webcam_wf (m : DeviceModel) (hm : wfFrames m) (s : WebcamState)
    (hs : wfb s.last_frame = true) :
    wfb (start_webcam m s).1 = true ∧ wfb (start_webcam m s).2.1.last_frame = true := by
  rcases hinit : initialize_camera m { s with is_running := true } with ⟨ok, s2, tr⟩
  have hlf : s2.last_frame = s.last_frame := by
    have h0 := initialize_last_frame m { s with is_running := true }
    rw [hinit] at h0
    simpa using h0
  cases ok
  · simp [start_webcam, hinit, hlf, hs]
  · cases hc2 : s2.camera with
    | none => simp [start_webcam, hinit, hc2, hlf, hs]
    | some h =>
      cases hre : m.readExn h.index h.readsDone with
      | some e => simp [start_webcam, hinit, hc2, hre, hlf, hs]
      | none =>
        cases hrr : m.readRet h.index h.readsDone with
        | false =>
          cases hrf : m.readFrame h.index h.readsDone <;>
            simp [start_webcam, hinit, hc2, hre, hrr, hrf, hlf, hs]
        | true =>
          cases hrf : m.readFrame h.index h.readsDone with
          | none => simp [start_webcam, hinit, hc2, hre, hrr, hrf, hlf, hs]
          | some f =>
            obtain ⟨d1, d2, d3⟩ := hm h.index h.readsDone f hrf
            simp [start_webcam, hinit, hc2, hre, hrr, hrf, wfb,
              cvtColorBGR2RGB, d1, d2, d3]

/-- `get_webcam_frame` returns a display-shaped image and keeps
`last_frame` display-shaped, for devices delivering display-shaped
frames. -/
lemma get_webcam_frame_wf (m : DeviceModel) (hm : wfFrames m) (s : WebcamState)
    (hs : wfb s.last_frame = true) :
    wfb (get_webcam_frame m s).1 = true ∧
      wfb (get_webcam_frame m s).2.1.last_frame = true := by
  rcases s with ⟨cam, run, lf, em⟩
  cases run
  · simp [get_webcam_frame, hs]
  · cases cam with
    | none => simp [get_webcam_frame, hs]
    | some h =>
      rcases hdr : drainReads m h (drainCount m h.index) with ⟨e, h2, tr⟩
      cases e
      · cases hre : m.readExn h2.index h2.readsDone with
        | some e2 => simp [get_webcam_frame, hdr, hre, hs]
        | none =>
          cases hrr : m.readRet h2.index h2.readsDone with
          | false =>
            cases hrf : m.readFrame h2.index h2.readsDone <;>
              simp [get_webcam_frame, hdr, hre, hrr, hrf, hs]
          | true =>
            cases hrf : m.readFrame h2.index h2.readsDone with
            | none => simp [get_webcam_frame, hdr, hre, hrr, hrf, hs]
            | some f =>
              obtain ⟨d1, d2, d3⟩ := hm h2.index h2.readsDone f hrf
              simp [get_webcam_frame, hdr, hre, hrr, hrf, wfb,
                cvtColorBGR2RGB, d1, d2, d3]
      · simp [get_webcam_frame, hdr, hs]

/-- `stop_webcam` returns a display-shaped image and keeps `last_frame`
display-shaped. -/
lemma stop_webcam_wf (m : DeviceModel) (s : WebcamState)
    (hs : wfb s.last_frame = true) :
    wfb (stop_webcam m s).1 = true ∧ wfb (stop_webcam m s).2.1.last_frame = true := by
  rw [stop_webcam_eq]
  exact ⟨hs, hs⟩

/-- One dispatched operation preserves the display-shape invariant. -/
lemma runOp_wf (m : DeviceModel) (hm : wfFrames m) (s : WebcamState) (o : Op)
    (hs : wfb s.last_frame = true) :
    wfb (runOp m s o).1 = true ∧ wfb (runOp m s o).2.1.last_frame = true := by
  cases o with
  | start => exact start_webcam_wf m hm s hs
  | stop => exact stop_webcam_wf m s hs
  | poll => exact get_webcam_frame_wf m hm s hs

/-- C8 (amended): device exceptions never escape (every operation is
total and returns an image), and for every device model whose frames have
the display shape, every image returned by any sequence of
`start`/`stop`/`poll` calls from a state with a display-shaped
`last_frame` is a well-formed 480 by 640 by 3 buffer.  (For devices
delivering other frame shapes the returned camera frames keep the
device's shape; see the counterexample.) -/
theorem claim_C8_always_wellformed (m : DeviceModel) (hm : wfFrames m) :
    ∀ (ops : List Op) (s : WebcamState), wfb s.last_frame = true →
      ((runSeq m s ops).1.all wfb) = true := by
  intro ops
  induction ops with
  | nil => intro s hs; simp [runSeq]
  | cons o rest ih =>
    intro s hs
    obtain ⟨h1, h2⟩ := runOp_wf m hm s o hs
    simp [runSeq, h1, ih _ h2]

/-- C8 counterexample: a device at index 0 that works but delivers
100 by 100 by 3 frames; the image `start()` returns keeps that shape, so
the claim that every returned image is a 640 by 480 by 3 buffer for every
device model is false. -/
theorem claim_C8_cex :
    ((runSeq mSmallFrames initState [Op.start]).1.all wfb) = false := by
  decide

/-- C8 witness: at a concrete device model with display-shaped frames,
every image returned along `start`, `poll`, `stop` is well-formed. -/
theorem claim_C8_witness :
    ((runSeq mGood initState [Op.start, Op.poll, Op.stop]).1.all wfb) = true := by
  apply claim_C8_always_wellformed mGood
  · intro i k f hf
    simp [mGood] at hf
    obtain ⟨-, hf2⟩ := hf
    subst hf2
    exact ⟨rfl, rfl, rfl⟩
  · rfl

end Webcam
